import Mathlib

/-! Formal model of the MD Creations jewelry-shop web application (app.py).

The application is a single-file Flask app: five ORM entities (User, Product,
Order, OrderItem, Message), session-based authentication with an admin role
gate, a filtered product catalog, an order-placement workflow, and a two-party
messaging feature.  This file embeds the data model and the request handlers
relevant to the stated properties as pure Lean functions over an explicit
database state, and proves the properties.

Conventions of the embedding:
* the SQLite database is a `DB` record of lists of rows plus autoincrement
  counters; a handler is a function `DB → inputs → DB × outcome`;
* `Float` money columns are modelled as `ℚ`;
* externally supplied primitives (werkzeug password hashing, the wtforms
  `Email()` validator, werkzeug `secure_filename`) are abstracted as an
  `AuthEnv` of function parameters;
* Python truthiness tests on request parameters (`if category:`,
  `if selected_user_id:`) are modelled explicitly: a `none` or empty /
  zero value fails the test;
* `flash` notices and redirects are captured in per-route outcome types.
-/

namespace MDC

/-- Externally supplied primitives, abstracted as parameters: werkzeug's
`generate_password_hash` / `check_password_hash` pair, the wtforms `Email()`
format validator, and werkzeug's `secure_filename` sanitizer. -/
structure AuthEnv where
  gen_hash : String → String
  check_hash : String → String → Bool
  email_ok : String → Bool
  secure_filename : String → String

/-- Row of the `user` table (class `User`). -/
structure User where
  id : Nat
  username : String
  email : String
  password_hash : String
  is_admin : Bool
  deriving DecidableEq

/-- Row of the `product` table (class `Product`).  `price` is a `Float`
column modelled as `ℚ`; `image_filename` is nullable; `date_added` is a
timestamp modelled as `Nat`. -/
structure Product where
  id : Nat
  name : String
  category : String
  material : String
  price : ℚ
  description : String
  image_filename : Option String
  date_added : Nat
  deriving DecidableEq

/-- Row of the `order` table (class `Order`). -/
structure Order where
  id : Nat
  user_id : Nat
  order_date : Nat
  total_price : ℚ
  customer_name : String
  customer_address : String
  customer_contact : String
  status : String
  deriving DecidableEq

/-- Row of the `order_item` table (class `OrderItem`). -/
structure OrderItem where
  id : Nat
  order_id : Nat
  product_id : Nat
  quantity : Nat
  price_at_order : ℚ
  deriving DecidableEq

/-- Row of the `message` table (class `Message`).  `receiver_id` is
nullable in the schema. -/
structure Message where
  id : Nat
  sender_id : Nat
  receiver_id : Option Nat
  message_text : String
  timestamp : Nat
  is_read : Bool
  deriving DecidableEq

/-- The whole database: one list per table plus the autoincrement counter of
each table's primary key. -/
structure DB where
  users : List User
  products : List Product
  orders : List Order
  order_items : List OrderItem
  messages : List Message
  next_user_id : Nat
  next_product_id : Nat
  next_order_id : Nat
  next_order_item_id : Nat
  next_message_id : Nat
  deriving DecidableEq

/-- Helper `allowed_file`: `'.' in filename and
filename.rsplit('.', 1)[1].lower() in ALLOWED_EXTENSIONS`.  The extension is
the text after the last dot, lowercased. -/
def allowed_file (filename : String) : Bool :=
  filename.data.contains '.' &&
  ["png", "jpg", "jpeg", "gif"].contains
    (String.mk (((filename.data.reverse.takeWhile (fun c => c ≠ '.')).reverse).map Char.toLower))

/-- Result of a request to a decorated route: `login_required` redirects an
anonymous user to the login page; `admin_required` redirects a non-admin to
the home page after flashing the recorded danger notice; otherwise the
wrapped handler body runs and produces the page payload. -/
inductive RouteResult (α : Type) where
  | redirectLogin : RouteResult α
  | redirectHomeWarning : String → RouteResult α
  | page : α → RouteResult α
  deriving DecidableEq

/-- Decorator `admin_required` (composed over `login_required`): the wrapped
handler is the thunk `handler`, invoked only when the requester is an
authenticated admin. -/
def admin_required {α : Type} (current_user : Option User) (handler : Unit → α) :
    RouteResult α :=
  match current_user with
  | none => .redirectLogin
  | some u =>
    if !u.is_admin then
      .redirectHomeWarning "You do not have permission to access this page."
    else
      .page (handler ())

/-- The five status strings accepted by `update_order_status`. -/
def validStatuses : List String :=
  ["Pending", "Processing", "Shipped", "Delivered", "Cancelled"]

/-- Outcome of `POST /admin/update_order_status/<id>`. -/
inductive StatusOutcome where
  | notFound : StatusOutcome
  | updated : String → StatusOutcome
  | invalid : String → StatusOutcome
  deriving DecidableEq

/-- Handler `update_order_status`: fetches the order (404 when absent), then
sets `order.status` when `request.form.get('status')` is one of the five
recognized strings (an absent field is `None`, which is not in the list) and
flashes success; otherwise flashes `Invalid status provided.` and commits
nothing. -/
def update_order_status (db : DB) (order_id : Nat) (new_status : Option String) :
    DB × StatusOutcome :=
  match db.orders.find? (fun o => o.id == order_id) with
  | none => (db, .notFound)
  | some o =>
    match new_status with
    | some s =>
      if s ∈ validStatuses then
        let orders' := db.orders.map fun o' =>
          if o'.id == order_id then { o' with status := s } else o'
        ({ db with orders := orders' },
         .updated ("Order " ++ toString o.id ++ " status updated to " ++ s ++ "."))
      else
        (db, .invalid "Invalid status provided.")
    | none => (db, .invalid "Invalid status provided.")

/-- SQL `LIKE` pattern matching as evaluated by SQLite for the `ilike`
filters: `%` matches any sequence of characters, `_` matches any single
character, and other characters compare case-insensitively (ASCII, which is
what both SQLite's `LIKE` and `Char.toLower` fold). -/
def likeMatch : List Char → List Char → Bool
  | [], s => s.isEmpty
  | p :: ps, s =>
    if p = '%' then
      s.tails.any (fun t => likeMatch ps t)
    else
      match s with
      | [] => false
      | c :: s' => (if p = '_' then true else p.toLower == c.toLower) && likeMatch ps s'

/-- `column.ilike(pattern)` on a string column. -/
def ilike (col pattern : String) : Bool :=
  likeMatch pattern.data col.data

/-- Stage `if category: products_query = products_query.filter_by(category=category)`.
`request.args.get` yields `none` when the parameter is absent; the Python
truthiness test also skips the filter for an empty string. -/
def filterCategory (category : Option String) (q : List Product) : List Product :=
  match category with
  | some c => if c ≠ "" then q.filter (fun p => p.category == c) else q
  | none => q

/-- Stage `if material: products_query = products_query.filter_by(material=material)`. -/
def filterMaterial (material : Option String) (q : List Product) : List Product :=
  match material with
  | some m => if m ≠ "" then q.filter (fun p => p.material == m) else q
  | none => q

/-- Stage `if min_price is not None: ... filter(Product.price >= min_price)`. -/
def filterMinPrice (min_price : Option ℚ) (q : List Product) : List Product :=
  match min_price with
  | some x => q.filter (fun p => decide (x ≤ p.price))
  | none => q

/-- Stage `if max_price is not None: ... filter(Product.price <= max_price)`. -/
def filterMaxPrice (max_price : Option ℚ) (q : List Product) : List Product :=
  match max_price with
  | some x => q.filter (fun p => decide (p.price ≤ x))
  | none => q

/-- Stage `if search_query: ... filter(name.ilike(f'%{q}%') | description.ilike(...)
| category.ilike(...) | material.ilike(...))`. -/
def filterSearch (search : Option String) (q : List Product) : List Product :=
  match search with
  | some s =>
    if s ≠ "" then
      q.filter (fun p =>
        ilike p.name ("%" ++ s ++ "%") || ilike p.description ("%" ++ s ++ "%") ||
        ilike p.category ("%" ++ s ++ "%") || ilike p.material ("%" ++ s ++ "%"))
    else q
  | none => q

/-- Handler `products` (`GET /products`): applies the five optional filters in
source order and returns the rows ordered by `Product.name`. -/
def products (db : DB) (category material : Option String)
    (min_price max_price : Option ℚ) (search : Option String) : List Product :=
  List.insertionSort (fun a b => a.name ≤ b.name)
    (filterSearch search
      (filterMaxPrice max_price
        (filterMinPrice min_price
          (filterMaterial material
            (filterCategory category db.products)))))

/-- Normalizes an optional request parameter the way Python truthiness does in
this handler: an empty string behaves exactly like an absent parameter. -/
def providedStr : Option String → Option String
  | some s => if s = "" then none else some s
  | none => none

/-- Case-insensitive (ASCII) substring test: the claim's reading of the
search filter. -/
def containsCI (hay needle : String) : Bool :=
  decide ((needle.data.map Char.toLower) <:+: (hay.data.map Char.toLower))

/-- True when the string contains no SQL `LIKE` wildcard character. -/
def wildcardFree (s : String) : Bool :=
  s.data.all (fun c => c ≠ '%' && c ≠ '_')

/-- Exact-match predicate of a provided category filter. -/
def catPred (category : Option String) (p : Product) : Bool :=
  match category with | none => true | some c => p.category == c

/-- Exact-match predicate of a provided material filter. -/
def matPred (material : Option String) (p : Product) : Bool :=
  match material with | none => true | some m => p.material == m

/-- Inclusive lower price bound predicate. -/
def minPred (min_price : Option ℚ) (p : Product) : Bool :=
  match min_price with | none => true | some x => decide (x ≤ p.price)

/-- Inclusive upper price bound predicate. -/
def maxPred (max_price : Option ℚ) (p : Product) : Bool :=
  match max_price with | none => true | some x => decide (p.price ≤ x)

/-- Case-insensitive substring search predicate over the four text fields. -/
def searchPred (search : Option String) (p : Product) : Bool :=
  match search with
  | none => true
  | some s =>
    containsCI p.name s || containsCI p.description s ||
    containsCI p.category s || containsCI p.material s

/-- The product-listing predicate exactly as the claim states it: a provided
category or material must match exactly, a provided price bound constrains
inclusively, and a provided search term must occur (case-insensitively) in
the name, description, category or material; all provided filters are
conjoined and an absent (`none`) filter imposes no constraint. -/
def claimedMatches (category material : Option String)
    (min_price max_price : Option ℚ) (search : Option String) (p : Product) : Bool :=
  catPred category p && matPred material p && minPred min_price p &&
  maxPred max_price p && searchPred search p

/-- The amended product-listing predicate: as `claimedMatches`, except that a
provided but empty string parameter imposes no constraint (Python truthiness
in the handler). -/
def amendedMatches (category material : Option String)
    (min_price max_price : Option ℚ) (search : Option String) (p : Product) : Bool :=
  claimedMatches (providedStr category) (providedStr material)
    min_price max_price (providedStr search) p

/-- Data of `OrderForm` after the `quantity` select value is parsed to a
number (`int(form.quantity.data)`). -/
structure OrderFormData where
  customer_name : String
  customer_address : String
  customer_contact : String
  quantity : Nat
  deriving DecidableEq

/-- Validators of `OrderForm`: `DataRequired` plus the `Length` maxima on the
three text fields, and the quantity select restricted to the choices 1..5. -/
def orderFormValid (f : OrderFormData) : Bool :=
  f.customer_name ≠ "" && f.customer_name.length ≤ 100 &&
  f.customer_address ≠ "" && f.customer_address.length ≤ 200 &&
  f.customer_contact ≠ "" && f.customer_contact.length ≤ 20 &&
  1 ≤ f.quantity && f.quantity ≤ 5

/-- Data of `RegistrationForm`. -/
structure RegFormData where
  username : String
  email : String
  password : String
  confirm_password : String
  deriving DecidableEq

/-- Validators of `RegistrationForm`: `DataRequired`, `Length(2, 20)` on the
username, `Email()` on the email, `Length(min=6)` on the password,
`EqualTo('password')` on the confirmation, plus the two custom validators
rejecting an already used username or email. -/
def regFormValid (env : AuthEnv) (db : DB) (f : RegFormData) : Bool :=
  f.username ≠ "" && 2 ≤ f.username.length && f.username.length ≤ 20 &&
  f.email ≠ "" && env.email_ok f.email &&
  f.password ≠ "" && 6 ≤ f.password.length &&
  f.confirm_password ≠ "" && f.confirm_password == f.password &&
  !(db.users.any (fun u => u.username == f.username)) &&
  !(db.users.any (fun u => u.email == f.email))

/-- Data of `ProductForm` (the price `DecimalField` is modelled as `ℚ`). -/
structure ProductFormData where
  name : String
  category : String
  material : String
  price : ℚ
  description : String
  deriving DecidableEq

/-- Validators of `ProductForm`: `DataRequired` and `Length` bounds on the
text fields, the category select restricted to its five choices, and
`NumberRange(min=0.01)` on the price. -/
def productFormValid (f : ProductFormData) : Bool :=
  f.name ≠ "" && f.name.length ≤ 100 &&
  ["Ring", "Necklace", "Earring", "Bracelet", "Pendant"].contains f.category &&
  f.material ≠ "" && f.material.length ≤ 50 &&
  decide (mkRat 1 100 ≤ f.price) &&
  f.description ≠ ""

/-- Validators of `MessageForm`: `DataRequired` and `Length(1, 500)` on the
message text. -/
def messageFormValid (t : String) : Bool :=
  t ≠ "" && 1 ≤ t.length && t.length ≤ 500

/-- Outcome of `GET,POST /product/<id>` (`product_detail`). -/
inductive OrderOutcome where
  | notFound : OrderOutcome
  | renderPage : OrderOutcome
  | redirectLogin : String → OrderOutcome
  | placed : Nat → String → OrderOutcome
  deriving DecidableEq

/-- Handler `product_detail`: fetches the product (404 when absent); on a
submitted valid `OrderForm`, redirects an anonymous user to the login page
carrying `next=request.url`, and otherwise computes
`total_price = product.price * quantity`, inserts the `Order` (its id is
assigned by `db.session.flush()`), inserts the single `OrderItem` carrying
`price_at_order = product.price`, commits, and flashes success.  `form` is
`none` for a plain `GET`; an invalid form re-renders the page. -/
def product_detail (db : DB) (current_user : Option User) (product_id : Nat)
    (form : Option OrderFormData) (now : Nat) : DB × OrderOutcome :=
  match db.products.find? (fun p => p.id == product_id) with
  | none => (db, .notFound)
  | some product =>
    match form with
    | none => (db, .renderPage)
    | some f =>
      if orderFormValid f then
        match current_user with
        | none => (db, .redirectLogin ("/product/" ++ toString product_id))
        | some u =>
          let quantity := f.quantity
          let total_price := product.price * quantity
          let order : Order :=
            { id := db.next_order_id
              user_id := u.id
              order_date := now
              total_price := total_price
              customer_name := f.customer_name
              customer_address := f.customer_address
              customer_contact := f.customer_contact
              status := "Pending" }
          let order_item : OrderItem :=
            { id := db.next_order_item_id
              order_id := order.id
              product_id := product.id
              quantity := quantity
              price_at_order := product.price }
          ({ db with
              orders := db.orders ++ [order]
              order_items := db.order_items ++ [order_item]
              next_order_id := db.next_order_id + 1
              next_order_item_id := db.next_order_item_id + 1 },
           .placed order.id
             ("Your order for " ++ toString quantity ++ " x " ++ product.name ++
              " has been placed successfully!"))
      else (db, .renderPage)

/-- Outcome of `GET,POST /signup`. -/
inductive SignupOutcome where
  | redirectHome : SignupOutcome
  | created : SignupOutcome
  | renderForm : SignupOutcome
  deriving DecidableEq

/-- Handler `signup`: an authenticated user is sent home; on a valid
`RegistrationForm` (which includes the duplicate username / email checks) a
new non-admin `User` with the hashed password is inserted and committed;
otherwise the form is re-rendered with its field errors. -/
def signup (env : AuthEnv) (db : DB) (current_user : Option User)
    (f : RegFormData) : DB × SignupOutcome :=
  match current_user with
  | some _ => (db, .redirectHome)
  | none =>
    if regFormValid env db f then
      let user : User :=
        { id := db.next_user_id
          username := f.username
          email := f.email
          password_hash := env.gen_hash f.password
          is_admin := false }
      ({ db with users := db.users ++ [user], next_user_id := db.next_user_id + 1 },
       .created)
    else (db, .renderForm)

/-- Outcome of `GET,POST /login`. -/
inductive LoginOutcome where
  | redirectHome : LoginOutcome
  | success : String → LoginOutcome
  | failure : LoginOutcome
  | renderForm : LoginOutcome
  deriving DecidableEq

/-- Handler `login`: an authenticated user is sent home; on a valid
`LoginForm` (`DataRequired` on both fields, `Email()` on the email) the first
user with the given email is looked up and the password is verified against
the stored hash; success logs in and redirects to `request.args.get('next')`
when that is truthy, else to the home page; a failed check flashes the danger
notice and re-renders. -/
def login (env : AuthEnv) (db : DB) (current_user : Option User)
    (email password : String) (next_url : Option String) : LoginOutcome :=
  match current_user with
  | some _ => .redirectHome
  | none =>
    if email ≠ "" && env.email_ok email && password ≠ "" then
      match db.users.find? (fun u => u.email == email) with
      | some u =>
        if env.check_hash u.password_hash password then
          .success (match next_url with
            | some s => if s = "" then "/home" else s
            | none => "/home")
        else .failure
      | none => .failure
    else .renderForm

/-- Outcome of `GET,POST /admin/add_product` past the admin gate. -/
inductive AddProductOutcome where
  | formErrors : AddProductOutcome
  | invalidImage : String → AddProductOutcome
  | added : String → AddProductOutcome
  deriving DecidableEq

/-- Handler `add_product` (admin gate already passed): on a valid
`ProductForm`, the uploaded file is checked — `request.files.get('image')`
is `none` when no file part was sent, and a `FileStorage` with an empty
filename is falsy — and a missing or disallowed file flashes the warning and
re-renders the form; otherwise the sanitized filename is saved and a
`Product` whose `image_filename` is that filename is inserted and
committed.  `image` is the uploaded file's filename, if any. -/
def add_product (env : AuthEnv) (db : DB) (f : ProductFormData)
    (image : Option String) (now : Nat) : DB × AddProductOutcome :=
  if productFormValid f then
    match image with
    | some fn =>
      if fn ≠ "" && allowed_file fn then
        let filename := env.secure_filename fn
        let product : Product :=
          { id := db.next_product_id
            name := f.name
            category := f.category
            material := f.material
            price := f.price
            description := f.description
            image_filename := some filename
            date_added := now }
        ({ db with
            products := db.products ++ [product]
            next_product_id := db.next_product_id + 1 },
         .added "Product added successfully!")
      else
        (db, .invalidImage
          "Invalid image file or no file uploaded. Please upload a PNG, JPG, JPEG, or GIF.")
    | none =>
      (db, .invalidImage
        "Invalid image file or no file uploaded. Please upload a PNG, JPG, JPEG, or GIF.")
  else (db, .formErrors)

/-- Handler `edit_product` (admin gate already passed), modelled for its
database effect: on a valid form the fetched product's fields are updated
and committed, with the image replaced only when a new file with an allowed
extension was uploaded; an upload with a disallowed extension re-renders
without committing, and the handler touches no table other than `product`. -/
def edit_product (env : AuthEnv) (db : DB) (product_id : Nat)
    (f : ProductFormData) (image : Option String) : DB :=
  match db.products.find? (fun p => p.id == product_id) with
  | none => db
  | some _ =>
    if productFormValid f then
      let updateFields : Product → Product := fun p =>
        { p with
            name := f.name
            category := f.category
            material := f.material
            price := f.price
            description := f.description }
      match image with
      | some fn =>
        if fn ≠ "" then
          if allowed_file fn then
            { db with products := db.products.map fun p =>
                if p.id == product_id then
                  { updateFields p with image_filename := some (env.secure_filename fn) }
                else p }
          else db
        else
          { db with products := db.products.map fun p =>
              if p.id == product_id then updateFields p else p }
      | none =>
        { db with products := db.products.map fun p =>
            if p.id == product_id then updateFields p else p }
    else db

/-- Outcome of `GET,POST /admin/messages` past the admin gate. -/
inductive AdminMsgOutcome where
  | sent : String → AdminMsgOutcome
  | page : AdminMsgOutcome
  deriving DecidableEq

/-- Handler `admin_messages` (admin gate already passed; `admin` is the
acting `current_user`).  `user_id` is `request.args.get('user_id', type=int)`
and is tested for Python truthiness, so `0` behaves like an absent
parameter.  When the selected user exists and is not an admin, every message
of the selected conversation sent by that user to the acting admin and not
yet read has `is_read` set and the session is committed — such messages are
exactly those with `sender_id = selected` and `receiver_id = admin`.  Then,
on a submitted valid `MessageForm` with a selected user (admin or not), a
reply to that user is inserted and flashed; otherwise the page renders with
no notice.  `msg_text` is `none` for a plain `GET`.  The counterparty
lookup (`selectedUser`) is split out for reuse in the proofs. -/
def selectedUser (db : DB) (user_id : Option Int) : Option User :=
  match user_id with
  | some n => if n ≠ 0 then db.users.find? (fun u => (u.id : Int) == n) else none
  | none => none

/-- Continuation of `admin_messages` (see the comment on `selectedUser`). -/
def admin_messages (db : DB) (admin : User) (user_id : Option Int)
    (msg_text : Option String) (now : Nat) : DB × AdminMsgOutcome :=
  let selected_user : Option User := selectedUser db user_id
  let db1 : DB :=
    match selected_user with
    | some su =>
      if !su.is_admin then
        { db with messages := db.messages.map fun m =>
            if m.sender_id == su.id && m.receiver_id == some admin.id && !m.is_read then
              { m with is_read := true }
            else m }
      else db
    | none => db
  match msg_text with
  | some t =>
    if messageFormValid t then
      match selected_user with
      | some su =>
        let message : Message :=
          { id := db1.next_message_id
            sender_id := admin.id
            receiver_id := some su.id
            message_text := t
            timestamp := now
            is_read := false }
        ({ db1 with
            messages := db1.messages ++ [message]
            next_message_id := db1.next_message_id + 1 },
         .sent ("Message sent to " ++ su.username ++ "!"))
      | none => (db1, .page)
    else (db1, .page)
  | none => (db1, .page)

/-! Concrete sample data used to instantiate the theorems below. -/

/-- A freshly created database: empty tables, all autoincrement counters at 1. -/
def emptyDB : DB :=
  { users := [], products := [], orders := [], order_items := [], messages := []
    next_user_id := 1, next_product_id := 1, next_order_id := 1
    next_order_item_id := 1, next_message_id := 1 }

/-- A concrete environment: a deterministic stand-in for the abstracted
externals, used only to instantiate theorems. -/
def sampleEnv : AuthEnv :=
  { gen_hash := fun p => "hash:" ++ p
    check_hash := fun h p => h == "hash:" ++ p
    email_ok := fun s => s.data.contains '@'
    secure_filename := fun s => s }

def productC1 : Product :=
  { id := 1, name := "Gold Ring", category := "Ring", material := "Gold"
    price := 120, description := "A gold ring", image_filename := some "ring.png"
    date_added := 0 }

def userC1 : User :=
  { id := 1, username := "vera", email := "vera@example.com"
    password_hash := "hash:secret1", is_admin := false }

def dbC1 : DB :=
  { emptyDB with users := [userC1], products := [productC1]
                 next_user_id := 2, next_product_id := 2 }

def formC1 : OrderFormData :=
  { customer_name := "Vera", customer_address := "1 Main St"
    customer_contact := "12345", quantity := 3 }

def prodRing : Product :=
  { id := 1, name := "Gold Ring", category := "Ring", material := "Gold"
    price := 100, description := "shiny", image_filename := none, date_added := 0 }

def dbRing : DB := { emptyDB with products := [prodRing], next_product_id := 2 }

def prodAxb : Product :=
  { id := 1, name := "axb", category := "Ring", material := "Gold"
    price := 50, description := "plain", image_filename := none, date_added := 0 }

def dbAxb : DB := { emptyDB with products := [prodAxb], next_product_id := 2 }

def userC3 : User :=
  { id := 7, username := "nora", email := "nora@example.com"
    password_hash := "hash:pw", is_admin := false }

def orderC4 : Order :=
  { id := 1, user_id := 1, order_date := 0, total_price := 120
    customer_name := "Vera", customer_address := "1 Main St"
    customer_contact := "12345", status := "Pending" }

def dbC4 : DB := { emptyDB with orders := [orderC4], next_order_id := 2 }

def userC5 : User :=
  { id := 1, username := "vera", email := "vera@example.com"
    password_hash := "hash:secret1", is_admin := false }

def dbC5 : DB := { emptyDB with users := [userC5], next_user_id := 2 }

def dbC6 : DB := { emptyDB with users := [userC5], next_user_id := 2 }

def regFormC6 : RegFormData :=
  { username := "vera", email := "other@example.com"
    password := "secret2", confirm_password := "secret2" }

def adminC7 : User :=
  { id := 1, username := "admin", email := "admin@mdcreations.com"
    password_hash := "hash:adminpassword", is_admin := true }

def userC7 : User :=
  { id := 2, username := "vera", email := "vera@example.com"
    password_hash := "hash:secret1", is_admin := false }

def msgC7a : Message :=
  { id := 1, sender_id := 2, receiver_id := some 1, message_text := "hello"
    timestamp := 1, is_read := false }

def msgC7b : Message :=
  { id := 2, sender_id := 1, receiver_id := some 2, message_text := "hi"
    timestamp := 2, is_read := false }

def dbC7 : DB :=
  { emptyDB with users := [adminC7, userC7], messages := [msgC7a, msgC7b]
                 next_user_id := 3, next_message_id := 3 }

def prodC8 : Product :=
  { id := 5, name := "Silver Pendant", category := "Pendant", material := "Silver"
    price := 80, description := "simple", image_filename := some "p.png"
    date_added := 0 }

def dbC8 : DB := { emptyDB with products := [prodC8], next_product_id := 6 }

def formC8 : OrderFormData :=
  { customer_name := "Ann", customer_address := "2 High St"
    customer_contact := "555", quantity := 2 }

def userC8 : User :=
  { id := 1, username := "ann", email := "ann@example.com"
    password_hash := "hash:pw1234", is_admin := false }

def dbC8b : DB := { emptyDB with users := [userC8], next_user_id := 2 }

def formC9 : ProductFormData :=
  { name := "Pearl Necklace", category := "Necklace", material := "Pearl"
    price := 300, description := "elegant" }

def adminC10 : User :=
  { id := 1, username := "admin", email := "admin@mdcreations.com"
    password_hash := "hash:adminpassword", is_admin := true }

def dbC10 : DB := { emptyDB with users := [adminC10], next_user_id := 2 }

/-! Helper lemmas. -/

theorem likeMatch_percent_cons (ps : List Char) (s : List Char) :
    likeMatch ('%' :: ps) s = true ↔ ∃ t, t <:+ s ∧ likeMatch ps t = true := by
  simp [likeMatch, List.any_eq_true, List.mem_tails]

theorem likeMatch_single_percent (s : List Char) : likeMatch ['%'] s = true := by
  rw [likeMatch_percent_cons]
  exact ⟨[], List.nil_suffix, rfl⟩

theorem likeMatch_nowild_append_percent (q : List Char) :
    ∀ s, (∀ c ∈ q, c ≠ '%' ∧ c ≠ '_') →
      (likeMatch (q ++ ['%']) s = true ↔
        q.map Char.toLower <+: s.map Char.toLower) := by
  induction q with
  | nil =>
    intro s _
    simp [likeMatch_single_percent,  List.nil_prefix]
  | cons a q ih =>
    intro s hq
    obtain ⟨ha1, ha2⟩ := hq a (List.mem_cons_self a q)
    have hq' : ∀ c ∈ q, c ≠ '%' ∧ c ≠ '_' := fun c hc => hq c (List.mem_cons_of_mem a hc)
    cases s with
    | nil => simp [likeMatch, ha1]
    | cons c s' =>
      simp [likeMatch, ha1, ha2,  List.cons_prefix_cons, ih s' hq', Bool.and_eq_true,
        beq_iff_eq]

theorem wildcardFree_chars {s : String} (hs : wildcardFree s = true) :
    ∀ c ∈ s.data, c ≠ '%' ∧ c ≠ '_' := by
  intro c hc
  have h := (List.all_eq_true.mp hs) c hc
  simp [Bool.and_eq_true, decide_eq_true_eq] at h
  exact h

theorem ilike_percent_iff (hay s : String) (hs : wildcardFree s = true) :
    ilike hay ("%" ++ s ++ "%") = containsCI hay s := by
  have hq := wildcardFree_chars hs
  rw [Bool.eq_iff_iff]
  unfold ilike containsCI
  have hdata : ("%" ++ s ++ "%").data = '%' :: (s.data ++ ['%']) := by
    rw [String.data_append, String.data_append]
    show ['%'] ++ s.data ++ ['%'] = '%' :: (s.data ++ ['%'])
    simp
  rw [hdata, decide_eq_true_eq, likeMatch_percent_cons]
  constructor
  · rintro ⟨t, hts, hlm⟩
    have hpre := (likeMatch_nowild_append_percent s.data t hq).mp hlm
    exact  List.infix_iff_prefix_suffix.mpr
      ⟨t.map Char.toLower, hpre, List.IsSuffix.map _ hts⟩
  · intro hinf
    obtain ⟨w, hpre, hsuf⟩ :=  List.infix_iff_prefix_suffix.mp hinf
    have hw := List.suffix_iff_eq_drop.mp hsuf
    refine ⟨hay.data.drop ((hay.data.map Char.toLower).length - w.length),
      List.drop_suffix _ _, ?_⟩
    rw [likeMatch_nowild_append_percent s.data _ hq, List.map_drop, ← hw]
    exact hpre

theorem mem_filterCategory (category : Option String) (q : List Product) (p : Product) :
    p ∈ filterCategory category q ↔ p ∈ q ∧ catPred (providedStr category) p = true := by
  rcases category with _ | c
  · simp [filterCategory, providedStr, catPred]
  · by_cases hc : c = "" <;> simp [filterCategory, providedStr, catPred, hc, List.mem_filter]

theorem mem_filterMaterial (material : Option String) (q : List Product) (p : Product) :
    p ∈ filterMaterial material q ↔ p ∈ q ∧ matPred (providedStr material) p = true := by
  rcases material with _ | m
  · simp [filterMaterial, providedStr, matPred]
  · by_cases hm : m = "" <;> simp [filterMaterial, providedStr, matPred, hm, List.mem_filter]

theorem mem_filterMinPrice (min_price : Option ℚ) (q : List Product) (p : Product) :
    p ∈ filterMinPrice min_price q ↔ p ∈ q ∧ minPred min_price p = true := by
  rcases min_price with _ | x
  · simp [filterMinPrice, minPred]
  · simp [filterMinPrice, minPred, List.mem_filter]

theorem mem_filterMaxPrice (max_price : Option ℚ) (q : List Product) (p : Product) :
    p ∈ filterMaxPrice max_price q ↔ p ∈ q ∧ maxPred max_price p = true := by
  rcases max_price with _ | x
  · simp [filterMaxPrice, maxPred]
  · simp [filterMaxPrice, maxPred, List.mem_filter]

theorem mem_filterSearch (search : Option String) (q : List Product) (p : Product)
    (hs : search.all wildcardFree = true) :
    p ∈ filterSearch search q ↔ p ∈ q ∧ searchPred (providedStr search) p = true := by
  rcases search with _ | s
  · simp [filterSearch, providedStr, searchPred]
  · have hsw : wildcardFree s = true := by simp [Option.all] at hs; exact hs
    by_cases hempty : s = ""
    · simp [filterSearch, providedStr, searchPred, hempty]
    · have key : ∀ hay : String, ilike hay ("%" ++ s ++ "%") = containsCI hay s :=
        fun hay => ilike_percent_iff hay s hsw
      simp [filterSearch, providedStr, searchPred, hempty, List.mem_filter, key]

theorem edit_product_frame (env : AuthEnv) (db : DB) (pid : Nat)
    (g : ProductFormData) (img : Option String) :
    (edit_product env db pid g img).orders = db.orders ∧
    (edit_product env db pid g img).order_items = db.order_items := by
  unfold edit_product
  repeat' split
  all_goals exact ⟨rfl, rfl⟩

/-! Claim theorems. -/

/-- C2 counterexample: the claim as stated fails on the handler.  With the
provided (but empty-string) category filter `some ""` the handler returns a
product whose category is `"Ring"`, which does not satisfy the claimed exact
category match; and with the search term `"a%b"` the handler returns a
product named `"axb"` even though `"a%b"` is not a case-insensitive
substring of any of its text fields, because `%` acts as a SQL `LIKE`
wildcard in the handler's `ilike` filter. -/
theorem products_filter_counterexample :
    (prodRing ∈ products dbRing (some "") none none none none ∧
      claimedMatches (some "") none none none none prodRing = false) ∧
    (prodAxb ∈ products dbAxb none none none none (some "a%b") ∧
      claimedMatches none none none none (some "a%b") prodAxb = false) := by
  decide

/-- C2 (amended): for every filter combination whose search term contains no
SQL `LIKE` wildcard character (`%` or `_`), the product listing returns
exactly the products satisfying every provided predicate — exact category
and material match, inclusive price bounds, case-insensitive substring
search over name, description, category and material — combined with
logical AND, where an absent filter, or a filter provided as the empty
string, imposes no constraint. -/
theorem products_filter_amended (db : DB) (category material : Option String)
    (min_price max_price : Option ℚ) (search : Option String) (p : Product)
    (hs : search.all wildcardFree = true) :
    p ∈ products db category material min_price max_price search ↔
    p ∈ db.products ∧
      amendedMatches category material min_price max_price search p = true := by
  unfold products
  rw [List.mem_insertionSort, mem_filterSearch _ _ _ hs, mem_filterMaxPrice,
    mem_filterMinPrice, mem_filterMaterial, mem_filterCategory]
  unfold amendedMatches claimedMatches
  simp only [Bool.and_eq_true]
  tauto

/-- C2 witness: the amended theorem instantiated at a concrete database and a
concrete wildcard-free search term. -/
theorem products_filter_amended_witness :
    ((some "ring" : Option String).all wildcardFree = true) ∧
    (prodRing ∈ products dbRing none none none none (some "ring") ↔
      prodRing ∈ dbRing.products ∧
        amendedMatches none none none none (some "ring") prodRing = true) :=
  ⟨by decide,
   products_filter_amended dbRing none none none none (some "ring") prodRing (by decide)⟩

/-- C3: an authenticated non-admin user requesting any admin-gated route is
redirected to the home page with the recorded warning notice; the result is
independent of the wrapped handler, so the handler body is never executed
and no admin data is returned. -/
theorem admin_gate_blocks_non_admin {α : Type} (u : User) (handler : Unit → α)
    (h : u.is_admin = false) :
    admin_required (some u) handler =
      .redirectHomeWarning "You do not have permission to access this page." := by
  simp [admin_required, h]

/-- C3 witness: the gate theorem instantiated at a concrete non-admin user
and a concrete handler. -/
theorem admin_gate_blocks_non_admin_witness :
    userC3.is_admin = false ∧
    admin_required (some userC3) (fun _ => (0 : Nat)) =
      .redirectHomeWarning "You do not have permission to access this page." :=
  ⟨by decide, admin_gate_blocks_non_admin userC3 (fun _ => (0 : Nat)) (by decide)⟩

/-- C4: for an existing order, the admin status update sets the status to any
of the five enumerated strings unconditionally (no restriction on the
previous status, so backward transitions are accepted) and flashes success,
while any other string leaves the database unchanged and flashes the error
notice. -/
theorem update_order_status_spec (db : DB) (oid : Nat) (o : Order) (s : String)
    (hfind : db.orders.find? (fun x => x.id == oid) = some o) :
    (s ∈ validStatuses →
      (update_order_status db oid (some s)).1.orders.find? (fun x => x.id == oid) =
        some { o with status := s } ∧
      (update_order_status db oid (some s)).2 =
        .updated ("Order " ++ toString o.id ++ " status updated to " ++ s ++ ".")) ∧
    (s ∉ validStatuses →
      update_order_status db oid (some s) = (db, .invalid "Invalid status provided.")) := by
  have hid := List.find?_some hfind
  constructor
  · intro hs
    have hcomp : ((fun (x : Order) => x.id == oid) ∘
        (fun o' => if o'.id == oid then { o' with status := s } else o')) =
        fun (x : Order) => x.id == oid := by
      funext x
      by_cases h : x.id == oid <;> simp [Function.comp, h]
    constructor
    · simp only [update_order_status, hfind, if_pos hs]
      rw [List.find?_map, hcomp, hfind]
      have ho : o.id = oid := by
        have h := hid
        simp at h
        exact h
      simp [ho]
    · simp only [update_order_status, hfind, if_pos hs]
  · intro hs
    simp only [update_order_status, hfind, if_neg hs]

/-- C4 witness: a concrete pending order is moved to `Shipped` (a valid
status), and the unrecognized status `Lost` is rejected leaving the database
unchanged. -/
theorem update_order_status_spec_witness :
    (dbC4.orders.find? (fun x => x.id == 1) = some orderC4 ∧
      ("Shipped" ∈ validStatuses →
        (update_order_status dbC4 1 (some "Shipped")).1.orders.find? (fun x => x.id == 1) =
          some { orderC4 with status := "Shipped" } ∧
        (update_order_status dbC4 1 (some "Shipped")).2 =
          .updated ("Order " ++ toString orderC4.id ++ " status updated to " ++
            "Shipped" ++ ".")) ∧
      ("Shipped" ∉ validStatuses →
        update_order_status dbC4 1 (some "Shipped") =
          (dbC4, .invalid "Invalid status provided."))) ∧
    (("Lost" ∈ validStatuses →
        (update_order_status dbC4 1 (some "Lost")).1.orders.find? (fun x => x.id == 1) =
          some { orderC4 with status := "Lost" } ∧
        (update_order_status dbC4 1 (some "Lost")).2 =
          .updated ("Order " ++ toString orderC4.id ++ " status updated to " ++
            "Lost" ++ ".")) ∧
      ("Lost" ∉ validStatuses →
        update_order_status dbC4 1 (some "Lost") =
          (dbC4, .invalid "Invalid status provided."))) :=
  ⟨⟨by decide, update_order_status_spec dbC4 1 orderC4 "Shipped" (by decide)⟩,
   update_order_status_spec dbC4 1 orderC4 "Lost" (by decide)⟩

/-- C1: a valid order placed by an authenticated user for an existing product
with price `p.price` and quantity `f.quantity` creates exactly one new Order
with `total_price = p.price * f.quantity`, together with exactly one
OrderItem for it carrying `price_at_order = p.price`; and any later
`edit_product` call — the only operation that changes a product's price —
leaves the `order` and `order_item` tables untouched, so both recorded
values survive any later price change. -/
theorem place_order_spec (db : DB) (u : User) (pid : Nat) (p : Product)
    (f : OrderFormData) (now : Nat) (env : AuthEnv) (pid2 : Nat)
    (g : ProductFormData) (img : Option String)
    (hp : db.products.find? (fun x => x.id == pid) = some p)
    (hf : orderFormValid f = true)
    (hfresh : ∀ oi ∈ db.order_items, oi.order_id ≠ db.next_order_id) :
    (product_detail db (some u) pid (some f) now).2 =
      .placed db.next_order_id
        ("Your order for " ++ toString f.quantity ++ " x " ++ p.name ++
         " has been placed successfully!") ∧
    (product_detail db (some u) pid (some f) now).1.orders =
      db.orders ++
        [{ id := db.next_order_id, user_id := u.id, order_date := now
           total_price := p.price * (f.quantity : ℚ)
           customer_name := f.customer_name
           customer_address := f.customer_address
           customer_contact := f.customer_contact
           status := "Pending" }] ∧
    (product_detail db (some u) pid (some f) now).1.order_items.filter
        (fun oi => oi.order_id == db.next_order_id) =
      [{ id := db.next_order_item_id, order_id := db.next_order_id
         product_id := p.id, quantity := f.quantity
         price_at_order := p.price }] ∧
    (edit_product env (product_detail db (some u) pid (some f) now).1 pid2 g img).orders =
      (product_detail db (some u) pid (some f) now).1.orders ∧
    (edit_product env (product_detail db (some u) pid (some f) now).1 pid2 g img).order_items =
      (product_detail db (some u) pid (some f) now).1.order_items := by
  have hmain : product_detail db (some u) pid (some f) now =
      ({ db with
          orders := db.orders ++
            [{ id := db.next_order_id, user_id := u.id, order_date := now
               total_price := p.price * (f.quantity : ℚ)
               customer_name := f.customer_name
               customer_address := f.customer_address
               customer_contact := f.customer_contact
               status := "Pending" }]
          order_items := db.order_items ++
            [{ id := db.next_order_item_id, order_id := db.next_order_id
               product_id := p.id, quantity := f.quantity
               price_at_order := p.price }]
          next_order_id := db.next_order_id + 1
          next_order_item_id := db.next_order_item_id + 1 },
       .placed db.next_order_id
         ("Your order for " ++ toString f.quantity ++ " x " ++ p.name ++
          " has been placed successfully!")) := by
    simp [product_detail, hp, hf]
  rw [hmain]
  refine ⟨rfl, rfl, ?_, edit_product_frame env _ pid2 g img⟩
  have hold : db.order_items.filter (fun oi => oi.order_id == db.next_order_id) = [] := by
    rw [List.filter_eq_nil_iff]
    intro oi hoi
    simp [hfresh oi hoi]
  simp [List.filter_append, hold]

/-- C1 witness: the spec's own scenario — price 120, quantity 3 — creates an
order with total 360 and one item with snapshot price 120. -/
theorem place_order_spec_witness :
    (dbC1.products.find? (fun x => x.id == 1) = some productC1 ∧
      orderFormValid formC1 = true ∧
      ∀ oi ∈ dbC1.order_items, oi.order_id ≠ dbC1.next_order_id) ∧
    ((product_detail dbC1 (some userC1) 1 (some formC1) 0).2 =
      .placed dbC1.next_order_id
        ("Your order for " ++ toString formC1.quantity ++ " x " ++ productC1.name ++
         " has been placed successfully!") ∧
    (product_detail dbC1 (some userC1) 1 (some formC1) 0).1.orders =
      dbC1.orders ++
        [{ id := dbC1.next_order_id, user_id := userC1.id, order_date := 0
           total_price := productC1.price * (formC1.quantity : ℚ)
           customer_name := formC1.customer_name
           customer_address := formC1.customer_address
           customer_contact := formC1.customer_contact
           status := "Pending" }] ∧
    (product_detail dbC1 (some userC1) 1 (some formC1) 0).1.order_items.filter
        (fun oi => oi.order_id == dbC1.next_order_id) =
      [{ id := dbC1.next_order_item_id, order_id := dbC1.next_order_id
         product_id := productC1.id, quantity := formC1.quantity
         price_at_order := productC1.price }] ∧
    (edit_product sampleEnv (product_detail dbC1 (some userC1) 1 (some formC1) 0).1
        1 formC9 none).orders =
      (product_detail dbC1 (some userC1) 1 (some formC1) 0).1.orders ∧
    (edit_product sampleEnv (product_detail dbC1 (some userC1) 1 (some formC1) 0).1
        1 formC9 none).order_items =
      (product_detail dbC1 (some userC1) 1 (some formC1) 0).1.order_items) :=
  ⟨⟨by decide, by decide, by decide⟩,
   place_order_spec dbC1 userC1 1 productC1 formC1 0 sampleEnv 1 formC9 none
     (by decide) (by decide) (by decide)⟩

/-- C5: a validated login attempt by an anonymous visitor succeeds exactly
when some stored user has the supplied email and the supplied password
verifies against that user's stored password hash; emails are unique in any
database reachable through `signup`, which the uniqueness hypothesis
records. -/
theorem login_succeeds_iff (env : AuthEnv) (db : DB) (email password : String)
    (next_url : Option String)
    (hnodup : (db.users.map User.email).Nodup)
    (hfmt : env.email_ok email = true) (hne : email ≠ "") (hpw : password ≠ "") :
    (∃ r, login env db none email password next_url = .success r) ↔
    ∃ u ∈ db.users, u.email = email ∧
      env.check_hash u.password_hash password = true := by
  unfold login
  have hv : (decide (email ≠ "") && env.email_ok email && decide (password ≠ "")) = true := by
    simp [hne, hfmt, hpw]
  rw [if_pos hv]
  cases hfind : db.users.find? (fun u => u.email == email) with
  | none =>
    have hnone := List.find?_eq_none.mp hfind
    constructor
    · rintro ⟨r, hr⟩
      exact absurd hr (by simp)
    · rintro ⟨u, hu, he, _⟩
      exact absurd (by simp [he] : (u.email == email) = true) (hnone u hu)
  | some u =>
    have hu_mem := List.mem_of_find?_eq_some hfind
    have hu_email : u.email = email := by
      have h := List.find?_some hfind
      simp at h
      exact h
    by_cases hchk : env.check_hash u.password_hash password = true
    · simp only [hchk, if_true]
      constructor
      · intro _
        exact ⟨u, hu_mem, hu_email, hchk⟩
      · intro _
        exact ⟨_, rfl⟩
    · have hchk' : env.check_hash u.password_hash password = false := by
        cases hb : env.check_hash u.password_hash password with
        | false => rfl
        | true => exact absurd hb hchk
      simp only [hchk', if_false, Bool.false_eq_true]
      constructor
      · rintro ⟨r, hr⟩
        exact absurd hr (by simp)
      · rintro ⟨v, hv, hve, hvchk⟩
        have hvu : v = u :=
          List.inj_on_of_nodup_map hnodup hv hu_mem (by rw [hve, hu_email])
        rw [hvu] at hvchk
        rw [hvchk] at hchk'
        cases hchk'

/-- C5 witness: the iff instantiated at a concrete single-user database with
a concrete verifying environment. -/
theorem login_succeeds_iff_witness :
    ((dbC5.users.map User.email).Nodup ∧
      sampleEnv.email_ok "vera@example.com" = true ∧
      "vera@example.com" ≠ "" ∧ "secret1" ≠ "") ∧
    ((∃ r, login sampleEnv dbC5 none "vera@example.com" "secret1" none = .success r) ↔
      ∃ u ∈ dbC5.users, u.email = "vera@example.com" ∧
        sampleEnv.check_hash u.password_hash "secret1" = true) :=
  ⟨⟨by decide, by decide, by decide, by decide⟩,
   login_succeeds_iff sampleEnv dbC5 "vera@example.com" "secret1" none
     (by decide) (by decide) (by decide) (by decide)⟩

/-- C6: a registration attempt whose username or email is already taken by a
stored user leaves the database — in particular the existing user record —
completely unchanged, and creates no new user. -/
theorem signup_duplicate_rejected (env : AuthEnv) (db : DB)
    (current_user : Option User) (f : RegFormData)
    (hdup : ∃ u ∈ db.users, u.username = f.username ∨ u.email = f.email) :
    (signup env db current_user f).1 = db := by
  rcases current_user with _ | u
  · obtain ⟨u, hu, hcase⟩ := hdup
    have hvalid : regFormValid env db f = false := by
      unfold regFormValid
      rcases hcase with h | h
      · have hany : db.users.any (fun v => v.username == f.username) = true :=
          List.any_eq_true.mpr ⟨u, hu, by simp [h]⟩
        simp [hany]
      · have hany : db.users.any (fun v => v.email == f.email) = true :=
          List.any_eq_true.mpr ⟨u, hu, by simp [h]⟩
        simp [hany]
    simp [signup, hvalid]
  · simp [signup]

/-- C6 witness: re-registering the username `vera` against a database already
holding a user `vera` changes nothing. -/
theorem signup_duplicate_rejected_witness :
    (∃ u ∈ dbC6.users, u.username = regFormC6.username ∨ u.email = regFormC6.email) ∧
    (signup sampleEnv dbC6 none regFormC6).1 = dbC6 :=
  ⟨by decide, signup_duplicate_rejected sampleEnv dbC6 none regFormC6 (by decide)⟩

/-- C7: when the admin views the conversation with a selected existing
non-admin counterparty, the message table afterwards is the old table with
exactly the messages sent by that counterparty to the admin marked read (a
pointwise update that changes no other field), and every other message — in
particular every message from the admin to the counterparty — left
entirely unchanged. -/
theorem admin_messages_marks_read (db : DB) (admin su : User) (n : Int) (now : Nat)
    (hfind : selectedUser db (some n) = some su)
    (hadm : su.is_admin = false) :
    (admin_messages db admin (some n) none now).1.messages =
      db.messages.map (fun m =>
        if m.sender_id == su.id && m.receiver_id == some admin.id then
          { m with is_read := true }
        else m) := by
  simp only [admin_messages, hfind, hadm, Bool.not_false, if_true]
  refine List.map_congr_left ?_
  intro m _
  by_cases h1 : (m.sender_id == su.id && m.receiver_id == some admin.id) = true
  · by_cases h2 : m.is_read = true
    · cases m with
      | mk id sid rid txt ts rd =>
        simp only at h2
        simp [h1, h2]
    · have h2' : m.is_read = false := by
        cases hb : m.is_read with
        | false => rfl
        | true => exact absurd hb h2
      simp [h1, h2']
  · have h1' : (m.sender_id == su.id && m.receiver_id == some admin.id) = false := by
      cases hb : (m.sender_id == su.id && m.receiver_id == some admin.id) with
      | false => rfl
      | true => exact absurd hb h1
    simp [h1']

/-- C7 witness: the mark-read theorem instantiated at a concrete database
holding one unread user-to-admin message and one admin-to-user message. -/
theorem admin_messages_marks_read_witness :
    (selectedUser dbC7 (some 2) = some userC7 ∧ userC7.is_admin = false) ∧
    (admin_messages dbC7 adminC7 (some 2) none 9).1.messages =
      dbC7.messages.map (fun m =>
        if m.sender_id == userC7.id && m.receiver_id == some adminC7.id then
          { m with is_read := true }
        else m) :=
  ⟨⟨by decide, by decide⟩,
   admin_messages_marks_read dbC7 adminC7 userC7 2 9 (by decide) (by decide)⟩

/-- C8: a valid order submission by an anonymous visitor creates no Order
and no OrderItem — the database is returned unchanged — and yields a
redirect to the login page carrying the original product page as the
preserved destination; a subsequent successful login with that destination
redirects straight back to it, resuming the deferred operation. -/
theorem anonymous_order_deferred (db : DB) (pid : Nat) (p : Product)
    (f : OrderFormData) (now : Nat) (env : AuthEnv) (db2 : DB)
    (email password r : String)
    (hp : db.products.find? (fun x => x.id == pid) = some p)
    (hf : orderFormValid f = true) :
    product_detail db none pid (some f) now =
      (db, .redirectLogin ("/product/" ++ toString pid)) ∧
    (login env db2 none email password (some ("/product/" ++ toString pid)) =
        .success r → r = "/product/" ++ toString pid) := by
  constructor
  · simp [product_detail, hp, hf]
  · intro hlog
    have hne : ("/product/" ++ toString pid) ≠ "" := by
      intro hcon
      have hd := congrArg String.data hcon
      rw [String.data_append] at hd
      exact absurd (List.append_eq_nil.mp hd).1 (by decide)
    simp only [login] at hlog
    split at hlog
    · split at hlog
      · split at hlog
        · simp [hne] at hlog
          exact hlog.symm
        · exact absurd hlog (by simp)
      · exact absurd hlog (by simp)
    · exact absurd hlog (by simp)

/-- C8 witness: a concrete anonymous order attempt on product 5 is deferred,
and a concrete successful login with the preserved destination returns to
`/product/5`. -/
theorem anonymous_order_deferred_witness :
    (dbC8.products.find? (fun x => x.id == 5) = some prodC8 ∧
      orderFormValid formC8 = true) ∧
    (product_detail dbC8 none 5 (some formC8) 0 =
      (dbC8, .redirectLogin ("/product/" ++ toString 5)) ∧
    (login sampleEnv dbC8b none "ann@example.com" "pw1234"
        (some ("/product/" ++ toString 5)) = .success "/product/5" →
      "/product/5" = "/product/" ++ toString 5)) :=
  ⟨⟨by decide, by decide⟩,
   anonymous_order_deferred dbC8 5 prodC8 formC8 0 sampleEnv dbC8b
     "ann@example.com" "pw1234" "/product/5" (by decide) (by decide)⟩

/-- C9: every product the admin add-product handler inserts carries a
non-null `image_filename`; and when the form is valid but the uploaded file
is missing, has an empty filename, or has a disallowed extension, no Product
row is created — the database is unchanged — and the handler re-renders the
form with the warning notice. -/
theorem add_product_image_spec (env : AuthEnv) (db : DB) (f : ProductFormData)
    (image : Option String) (now : Nat) :
    (∀ p ∈ (add_product env db f image now).1.products,
      p ∈ db.products ∨ p.image_filename.isSome = true) ∧
    (productFormValid f = true →
      image.all (fun fn => fn == "" || !allowed_file fn) = true →
      add_product env db f image now =
        (db, .invalidImage
          "Invalid image file or no file uploaded. Please upload a PNG, JPG, JPEG, or GIF.")) := by
  constructor
  · intro p hp
    unfold add_product at hp
    split at hp
    · split at hp
      · split at hp
        · simp at hp
          rcases hp with h | h
          · exact Or.inl h
          · right
            rw [h]
            rfl
        · exact Or.inl hp
      · exact Or.inl hp
    · exact Or.inl hp
  · intro hv hbad
    cases image with
    | none =>
      simp only [add_product, hv]
      rfl
    | some fn =>
      have hbad' : (fn == "" || !allowed_file fn) = true := by
        simp only [Option.all] at hbad
        exact hbad
      have hcond : (decide (fn ≠ "") && allowed_file fn) = false := by
        cases hfn : fn == "" with
        | true =>
          have h1 : fn = "" := by
            have h2 := hfn
            simp at h2
            exact h2
          simp [h1]
        | false =>
          rw [hfn] at hbad'
          simp at hbad'
          simp [hbad']
      simp only [add_product, hv]
      simp [hcond]
      intro hfn2
      have hd : decide (fn ≠ "") = true := by simp [hfn2]
      rw [hd, Bool.true_and] at hcond
      exact hcond

/-- C9 witness: a disallowed extension (`virus.exe`) with an otherwise valid
form creates nothing and produces the warning; the first conjunct is the
image invariant for this call. -/
theorem add_product_image_spec_witness :
    (productFormValid formC9 = true ∧
      (some "virus.exe" : Option String).all
        (fun fn => fn == "" || !allowed_file fn) = true) ∧
    ((∀ p ∈ (add_product sampleEnv emptyDB formC9 (some "virus.exe") 0).1.products,
        p ∈ emptyDB.products ∨ p.image_filename.isSome = true) ∧
      (productFormValid formC9 = true →
        (some "virus.exe" : Option String).all
          (fun fn => fn == "" || !allowed_file fn) = true →
        add_product sampleEnv emptyDB formC9 (some "virus.exe") 0 =
          (emptyDB, .invalidImage
            "Invalid image file or no file uploaded. Please upload a PNG, JPG, JPEG, or GIF."))) :=
  ⟨⟨by decide, by decide⟩,
   add_product_image_spec sampleEnv emptyDB formC9 (some "virus.exe") 0⟩

/-- C10 counterexample: the claim fails for a `user_id` referring to an admin
account.  When the acting admin submits a valid message with `user_id = 1`
(the admin's own id), the handler does create a Message — the mark-read
branch is skipped because the selected user is an admin, but the send branch
only requires a selected user — so the claim's "no Message is created" is
violated. -/
theorem admin_messages_admin_counterparty_counterexample :
    (admin_messages dbC10 adminC10 (some 1) (some "hi") 0).1.messages =
      [{ id := 1, sender_id := 1, receiver_id := some 1, message_text := "hi"
         timestamp := 0, is_read := false }] ∧
    dbC10.messages = [] ∧
    adminC10.is_admin = true ∧
    (admin_messages dbC10 adminC10 (some 1) (some "hi") 0).2 =
      .sent "Message sent to admin!" := by
  decide

/-- C10 (amended): if the admin submits a message without a selected
counterparty — `user_id` absent, zero (Python-falsy), or not matching any
user — then even for a message text that passes validation no Message is
created, nothing else in the database changes, and no notice of any kind is
produced (the page simply re-renders). -/
theorem admin_messages_no_counterparty (db : DB) (admin : User)
    (user_id : Option Int) (t : String) (now : Nat)
    (hsel : user_id = none ∨ user_id = some 0 ∨
      ∃ n, user_id = some n ∧ db.users.find? (fun u => (u.id : Int) == n) = none) :
    admin_messages db admin user_id (some t) now = (db, .page) := by
  have hnone : selectedUser db user_id = none := by
    rcases hsel with h | h | ⟨n, hn, hfind⟩
    · rw [h]
      rfl
    · rw [h]
      simp [selectedUser]
    · rw [hn]
      unfold selectedUser
      by_cases h0 : n = 0
      · simp [h0]
      · simp [h0, hfind]
  unfold admin_messages
  rw [hnone]
  by_cases hvt : messageFormValid t = true
  · simp [hvt]
  · simp [hvt]

/-- C10 witness: the amended theorem instantiated with an absent `user_id`
and a valid message text against a concrete database. -/
theorem admin_messages_no_counterparty_witness :
    ((none : Option Int) = none ∨ (none : Option Int) = some 0 ∨
      ∃ n, (none : Option Int) = some n ∧
        dbC10.users.find? (fun u => (u.id : Int) == n) = none) ∧
    admin_messages dbC10 adminC10 none (some "hi") 0 = (dbC10, .page) :=
  ⟨Or.inl rfl,
   admin_messages_no_counterparty dbC10 adminC10 none "hi" 0 (Or.inl rfl)⟩

end MDC
